import Mathlib

/-!
Verification of the `movie-booking` schema module (`src/models.py`).

The source declares two pydantic `BaseModel` schemas:

  class Movie(BaseModel):
      name: str
      id: str
      seat_map: Dict[str,bool]

  class Booking(BaseModel):
      movie_id: str
      seat_id: str

All behaviour of the module is the pydantic validate-on-construct semantics
applied to these field declarations.  We embed the pydantic v2 default
("lax"/smart) validation for the types that occur: `str` fields accept only
Python strings (ints, bools, dicts, None are rejected); `bool` fields accept
booleans, the integers 0 and 1, and the case-insensitive boolean vocabulary
strings ("true","t","yes","y","on","1" / "false","f","no","n","off","0");
`Dict[str,bool]` fields accept only dicts, validating each key as `str` and
each value as `bool`.  A required field that is absent from the input is an
error; unknown extra keys are ignored (the pydantic default, extra = ignore).
Per-field errors are collected into a single `ValidationError`, modelled here
as the `Except (List String)` error case.

Python keyword/dict inputs are modelled as association lists with string
keys and `PyVal` values; a Python `dict` value is a `PyVal.vdict` over an
association list of `PyVal` pairs (keys of a real dict are distinct; none of
the properties below depend on duplicates).
-/

/-- A Python runtime value, restricted to the shapes that can reach these
fields of these schemas: strings, ints, bools, dicts and `None`. -/
inductive PyVal where
  | vstr (s : String)
  | vint (n : Int)
  | vbool (b : Bool)
  | vdict (entries : List (PyVal × PyVal))
  | vnone

/-- Look up a field in the keyword-argument list (keys of a Python dict are
distinct, so first match is the entry of the dict). -/
def getField (input : List (String × PyVal)) (key : String) : Option PyVal :=
  match input with
  | [] => none
  | (k, v) :: rest => if k = key then some v else getField rest key

/-- pydantic: a required field must be present in the input. -/
def requireField (input : List (String × PyVal)) (key : String) :
    Except String PyVal :=
  match getField input key with
  | some v => Except.ok v
  | none => Except.error "missing"

/-- pydantic v2 lax validation of a `str` field: only a Python `str` is
accepted (ints, bools, dicts, None give `string_type` errors). -/
def validateStr : PyVal → Except String String
  | PyVal.vstr s => Except.ok s
  | _ => Except.error "string_type"

/-- ASCII lowering of one character (pydantic lowercases candidate boolean
strings before comparing them with the vocabulary). -/
def lowerChar (c : Char) : Char :=
  if 'A' ≤ c ∧ c ≤ 'Z' then Char.ofNat (c.toNat + 32) else c

/-- ASCII lowering of a string, character by character. -/
def lowerString (s : String) : String := String.mk (s.data.map lowerChar)

/-- pydantic v2 lax coercion of a string to `bool`: the case-insensitive
boolean vocabulary, `none` otherwise. -/
def boolFromStr (s : String) : Option Bool :=
  let l := lowerString s
  if l = "true" ∨ l = "t" ∨ l = "yes" ∨ l = "y" ∨ l = "on" ∨ l = "1" then
    some true
  else if l = "false" ∨ l = "f" ∨ l = "no" ∨ l = "n" ∨ l = "off" ∨ l = "0" then
    some false
  else
    none

/-- pydantic v2 lax validation of a `bool` field: booleans pass through, the
integers 0 and 1 coerce, boolean-vocabulary strings coerce, anything else is
an error. -/
def validateBool : PyVal → Except String Bool
  | PyVal.vbool b => Except.ok b
  | PyVal.vint n =>
      if n = 0 then Except.ok false
      else if n = 1 then Except.ok true
      else Except.error "bool_parsing"
  | PyVal.vstr s =>
      match boolFromStr s with
      | some b => Except.ok b
      | none => Except.error "bool_parsing"
  | _ => Except.error "bool_type"

/-- Validate the entries of a `Dict[str,bool]` value: every key as `str`,
every value as `bool`. -/
def validateEntries : List (PyVal × PyVal) →
    Except String (List (String × Bool))
  | [] => Except.ok []
  | (k, v) :: rest => do
      let ks ← validateStr k
      let vb ← validateBool v
      let tail ← validateEntries rest
      pure ((ks, vb) :: tail)

/-- pydantic v2 lax validation of a `Dict[str,bool]` field: the value must be
a dict, and each entry must validate. -/
def validateSeatMap : PyVal → Except String (List (String × Bool))
  | PyVal.vdict es => validateEntries es
  | _ => Except.error "dict_type"

/-- The tagged error contribution of one field to the collected
`ValidationError`. -/
def errsOf {α : Type} (tag : String) : Except String α → List String
  | Except.ok _ => []
  | Except.error e => [tag ++ ": " ++ e]

/-- The validated `Movie` value (class Movie in the source), fields as declared. -/
structure Movie where
  name : String
  id : String
  seat_map : List (String × Bool)
deriving DecidableEq, Repr

/-- Assemble a `Movie` from its three field validation results, collecting
all field errors into one `ValidationError` (pydantic reports every failing
field at once). -/
def Movie.combine (rn ri : Except String String)
    (rm : Except String (List (String × Bool))) :
    Except (List String) Movie :=
  match rn, ri, rm with
  | Except.ok n, Except.ok i, Except.ok m =>
      Except.ok { name := n, id := i, seat_map := m }
  | rn, ri, rm =>
      Except.error (errsOf "name" rn ++ errsOf "id" ri ++ errsOf "seat_map" rm)

/-- Construction `Movie(**input)`: pydantic validate-on-construct for `Movie`.
Declared fields are looked up and validated; extra keys are never consulted. -/
def Movie.validate (input : List (String × PyVal)) :
    Except (List String) Movie :=
  Movie.combine
    (requireField input "name" >>= validateStr)
    (requireField input "id" >>= validateStr)
    (requireField input "seat_map" >>= validateSeatMap)

/-- The validated `Booking` value (class Booking in the source), fields as declared. -/
structure Booking where
  movie_id : String
  seat_id : String
deriving DecidableEq, Repr

/-- Assemble a `Booking` from its two field validation results, collecting
all field errors into one `ValidationError`. -/
def Booking.combine (rm rs : Except String String) :
    Except (List String) Booking :=
  match rm, rs with
  | Except.ok m, Except.ok s => Except.ok { movie_id := m, seat_id := s }
  | rm, rs =>
      Except.error (errsOf "movie_id" rm ++ errsOf "seat_id" rs)

/-- Construction `Booking(**input)`: pydantic validate-on-construct for
`Booking`. -/
def Booking.validate (input : List (String × PyVal)) :
    Except (List String) Booking :=
  Booking.combine
    (requireField input "movie_id" >>= validateStr)
    (requireField input "seat_id" >>= validateStr)

/-- Encode an already-typed seat map as the Python dict value holding it. -/
def encodeSeatMap (sm : List (String × Bool)) : PyVal :=
  PyVal.vdict (sm.map fun p => (PyVal.vstr p.1, PyVal.vbool p.2))

/-- The canonical keyword input for `Movie` with the declared shapes. -/
def movieInput (n i : String) (sm : List (String × Bool)) :
    List (String × PyVal) :=
  [("name", PyVal.vstr n), ("id", PyVal.vstr i), ("seat_map", encodeSeatMap sm)]

/-- The canonical keyword input for `Booking` with the declared shapes. -/
def bookingInput (m s : String) : List (String × PyVal) :=
  [("movie_id", PyVal.vstr m), ("seat_id", PyVal.vstr s)]

/-- Validation of a canonically encoded seat map recovers it exactly. -/
lemma validateEntries_encode (sm : List (String × Bool)) :
    validateEntries (sm.map fun p => (PyVal.vstr p.1, PyVal.vbool p.2)) =
      Except.ok sm := by
  induction sm with
  | nil => rfl
  | cons hd tl ih =>
      cases hd with
      | mk k b =>
          simp only [List.map_cons, validateEntries, validateStr, validateBool,
            ih, bind, Except.bind, pure, Except.pure]

/-- Canonical-shape inputs validate to the `Movie` with exactly those fields. -/
lemma movie_validate_canonical (n i : String) (sm : List (String × Bool)) :
    Movie.validate (movieInput n i sm) = Except.ok ⟨n, i, sm⟩ := by
  have step : Movie.validate (movieInput n i sm) =
      Movie.combine (Except.ok n) (Except.ok i)
        (validateEntries (sm.map fun p => (PyVal.vstr p.1, PyVal.vbool p.2))) :=
    rfl
  rw [step, validateEntries_encode]
  rfl

/-- Canonical-shape inputs validate to the `Booking` with exactly those
fields. -/
lemma booking_validate_canonical (m s : String) :
    Booking.validate (bookingInput m s) = Except.ok ⟨m, s⟩ := rfl

/-- Assembling a `Movie` fails whenever some field result is an error. -/
lemma movie_combine_error (rn ri : Except String String)
    (rm : Except String (List (String × Bool)))
    (h : rn.isOk = false ∨ ri.isOk = false ∨ rm.isOk = false) :
    ∃ e, Movie.combine rn ri rm = Except.error e := by
  cases rn <;> cases ri <;> cases rm <;>
    simp_all [Except.isOk, Except.toBool, Movie.combine]

/-- Assembling a `Booking` fails whenever some field result is an error. -/
lemma booking_combine_error (rm rs : Except String String)
    (h : rm.isOk = false ∨ rs.isOk = false) :
    ∃ e, Booking.combine rm rs = Except.error e := by
  cases rm <;> cases rs <;>
    simp_all [Except.isOk, Except.toBool, Booking.combine]

/-- A missing required field makes the field computation an error. -/
lemma requireField_missing {α : Type} (input : List (String × PyVal))
    (key : String) (f : PyVal → Except String α)
    (h : getField input key = none) :
    ((requireField input key >>= f).isOk : Bool) = false := by
  simp [requireField, h, bind, Except.bind, Except.isOk, Except.toBool]

/-- Prepending entries whose keys differ from `key` leaves lookup unchanged. -/
lemma getField_append (ex inp : List (String × PyVal)) (key : String)
    (h : ∀ p ∈ ex, p.1 ≠ key) :
    getField (ex ++ inp) key = getField inp key := by
  induction ex with
  | nil => rfl
  | cons hd tl ih =>
      cases hd with
      | mk k v =>
          have hk : k ≠ key := h (k, v) (List.mem_cons_self _ _)
          simp only [List.cons_append, getField, if_neg hk]
          exact ih fun p hp => h p (List.mem_cons_of_mem _ hp)

/-- Prepending entries whose keys differ from `key` leaves the required-field
computation unchanged. -/
lemma requireField_append (ex inp : List (String × PyVal)) (key : String)
    (h : ∀ p ∈ ex, p.1 ≠ key) :
    requireField (ex ++ inp) key = requireField inp key := by
  unfold requireField
  rw [getField_append ex inp key h]

/-- Keys outside the declared `Movie` fields never affect validation. -/
lemma movie_validate_append (ex inp : List (String × PyVal))
    (h : ∀ p ∈ ex, p.1 ≠ "name" ∧ p.1 ≠ "id" ∧ p.1 ≠ "seat_map") :
    Movie.validate (ex ++ inp) = Movie.validate inp := by
  unfold Movie.validate
  rw [requireField_append ex inp "name" fun p hp => (h p hp).1,
    requireField_append ex inp "id" fun p hp => (h p hp).2.1,
    requireField_append ex inp "seat_map" fun p hp => (h p hp).2.2]

/-- Keys outside the declared `Booking` fields never affect validation. -/
lemma booking_validate_append (ex inp : List (String × PyVal))
    (h : ∀ p ∈ ex, p.1 ≠ "movie_id" ∧ p.1 ≠ "seat_id") :
    Booking.validate (ex ++ inp) = Booking.validate inp := by
  unfold Booking.validate
  rw [requireField_append ex inp "movie_id" fun p hp => (h p hp).1,
    requireField_append ex inp "seat_id" fun p hp => (h p hp).2]

/-- C1: for every input whose fields already have exactly the declared shapes
(name, id strings and seat_map a dict from string to bool for Movie; movie_id
and seat_id strings for Booking), construction succeeds and every field of the
resulting value equals the corresponding input exactly (round-trip identity). -/
theorem movie_booking_roundtrip_identity (n i m s : String)
    (sm : List (String × Bool)) :
    Movie.validate (movieInput n i sm) = Except.ok ⟨n, i, sm⟩ ∧
    Booking.validate (bookingInput m s) = Except.ok ⟨m, s⟩ :=
  ⟨movie_validate_canonical n i sm, booking_validate_canonical m s⟩

/-- C2 counterexample: the claim says the seat_map value "yes" makes
construction fail, but pydantic lax boolean coercion accepts "yes" and the
construction succeeds with the seat mapped to `true`. -/
theorem seat_map_yes_accepted_counterexample :
    Movie.validate [("name", PyVal.vstr "Inception"), ("id", PyVal.vstr "m1"),
      ("seat_map", PyVal.vdict [(PyVal.vstr "A1", PyVal.vstr "yes")])] =
      Except.ok ⟨"Inception", "m1", [("A1", true)]⟩ := rfl

/-- C2 (amended): a seat_map value that is a string outside the boolean
vocabulary of pydantic (such as "free") is rejected with a ValidationError,
while the vocabulary string "yes" is coerced to `true` and accepted. -/
theorem seat_map_value_coercion (nm i k s : String)
    (h : boolFromStr s = none) :
    Movie.validate [("name", PyVal.vstr nm), ("id", PyVal.vstr i),
        ("seat_map", PyVal.vdict [(PyVal.vstr k, PyVal.vstr s)])] =
      Except.error ["seat_map: bool_parsing"] ∧
    Movie.validate [("name", PyVal.vstr nm), ("id", PyVal.vstr i),
        ("seat_map", PyVal.vdict [(PyVal.vstr k, PyVal.vstr "yes")])] =
      Except.ok ⟨nm, i, [(k, true)]⟩ := by
  constructor
  · have step : Movie.validate [("name", PyVal.vstr nm), ("id", PyVal.vstr i),
        ("seat_map", PyVal.vdict [(PyVal.vstr k, PyVal.vstr s)])] =
        Movie.combine (Except.ok nm) (Except.ok i)
          (validateEntries [(PyVal.vstr k, PyVal.vstr s)]) := rfl
    have hrm : validateEntries [(PyVal.vstr k, PyVal.vstr s)] =
        Except.error "bool_parsing" := by
      simp [validateEntries, validateStr, validateBool, h, bind, Except.bind]
    rw [step, hrm]
    rfl
  · rfl

/-- C2 witness: the concrete rejected string "free" and the concrete accepted
string "yes" from the spec examples. -/
theorem seat_map_value_coercion_witness :
    Movie.validate [("name", PyVal.vstr "Inception"), ("id", PyVal.vstr "m1"),
        ("seat_map",
          PyVal.vdict [(PyVal.vstr "A1", PyVal.vstr "free")])] =
      Except.error ["seat_map: bool_parsing"] ∧
    Movie.validate [("name", PyVal.vstr "Inception"), ("id", PyVal.vstr "m1"),
        ("seat_map", PyVal.vdict [(PyVal.vstr "A1", PyVal.vstr "yes")])] =
      Except.ok ⟨"Inception", "m1", [("A1", true)]⟩ :=
  seat_map_value_coercion "Inception" "m1" "A1" "free" (by decide)

/-- C3: omitting any required field makes construction fail with a
ValidationError; the result type shows no partially constructed value exists
(validation yields either a full value or only an error). -/
theorem missing_required_field_fails (im ib : List (String × PyVal))
    (hm : getField im "name" = none ∨ getField im "id" = none ∨
      getField im "seat_map" = none)
    (hb : getField ib "movie_id" = none ∨ getField ib "seat_id" = none) :
    (∃ e, Movie.validate im = Except.error e) ∧
    (∃ e, Booking.validate ib = Except.error e) := by
  constructor
  · unfold Movie.validate
    apply movie_combine_error
    rcases hm with h | h | h
    · exact Or.inl (requireField_missing im "name" validateStr h)
    · exact Or.inr (Or.inl (requireField_missing im "id" validateStr h))
    · exact Or.inr (Or.inr (requireField_missing im "seat_map" validateSeatMap h))
  · unfold Booking.validate
    apply booking_combine_error
    rcases hb with h | h
    · exact Or.inl (requireField_missing ib "movie_id" validateStr h)
    · exact Or.inr (requireField_missing ib "seat_id" validateStr h)

/-- C3 witness: a Movie input lacking name and seat_map, and an empty Booking
input, both fail. -/
theorem missing_required_field_fails_witness :
    (∃ e, Movie.validate [("id", PyVal.vstr "m1")] = Except.error e) ∧
    (∃ e, Booking.validate [] = Except.error e) :=
  missing_required_field_fails [("id", PyVal.vstr "m1")] []
    (Or.inl rfl) (Or.inl rfl)

/-- C4: a non-string movie_id (any value that is not a Python str, in
particular the integer 123) makes Booking construction fail with a
ValidationError. -/
theorem booking_nonstring_movie_id_fails (v : PyVal)
    (h : ∀ s, v ≠ PyVal.vstr s) :
    ∃ e, Booking.validate [("movie_id", v), ("seat_id", PyVal.vstr "A1")] =
      Except.error e := by
  cases v with
  | vstr s => exact absurd rfl (h s)
  | vint n => exact ⟨_, rfl⟩
  | vbool b => exact ⟨_, rfl⟩
  | vdict es => exact ⟨_, rfl⟩
  | vnone => exact ⟨_, rfl⟩

/-- C4 witness: the spec example `movie_id = 123` fails. -/
theorem booking_nonstring_movie_id_fails_witness :
    ∃ e, Booking.validate [("movie_id", PyVal.vint 123),
      ("seat_id", PyVal.vstr "A1")] = Except.error e :=
  booking_nonstring_movie_id_fails (PyVal.vint 123) fun _ h => nomatch h

/-- C6: any pair of strings yields a successful Booking; validation consults
no movie collection and no seat map (its whole input is the two fields), so no
cross-entity check can occur. -/
theorem booking_no_cross_entity_validation (m s : String) :
    Booking.validate (bookingInput m s) = Except.ok ⟨m, s⟩ :=
  booking_validate_canonical m s

/-- C7 counterexample: the claim says construction with the empty name fails,
but the schema declares `name` as a plain str field with no non-emptiness
check, so construction succeeds. -/
theorem empty_name_accepted_counterexample :
    Movie.validate [("name", PyVal.vstr ""), ("id", PyVal.vstr "m1"),
      ("seat_map", PyVal.vdict [])] = Except.ok ⟨"", "m1", []⟩ := rfl

/-- C7 (amended): the schema imposes no non-emptiness constraint on `name`:
the empty string is accepted and preserved, for every id and seat map. -/
theorem empty_name_accepted (i : String) (sm : List (String × Bool)) :
    Movie.validate (movieInput "" i sm) = Except.ok ⟨"", i, sm⟩ :=
  movie_validate_canonical "" i sm

/-- C8: an empty seat_map is accepted for any string name and id; there is no
non-emptiness constraint on seat_map. -/
theorem empty_seat_map_accepted (n i : String) :
    Movie.validate (movieInput n i []) = Except.ok ⟨n, i, []⟩ :=
  movie_validate_canonical n i []

/-- C9: construction is a pure deterministic function of its input: two runs
on equal inputs give equal outcomes for both schemas (the embedded validators
take no state besides the input and produce no effect besides their result,
so purity and absence of shared mutable state hold by construction). -/
theorem construction_deterministic (i j : List (String × PyVal)) (h : i = j) :
    Movie.validate i = Movie.validate j ∧
    Booking.validate i = Booking.validate j := by
  subst h
  exact ⟨rfl, rfl⟩

/-- C9 witness: determinism at a concrete input. -/
theorem construction_deterministic_witness :
    Movie.validate (movieInput "Inception" "m1" []) =
      Movie.validate (movieInput "Inception" "m1" []) ∧
    Booking.validate (movieInput "Inception" "m1" []) =
      Booking.validate (movieInput "Inception" "m1" []) :=
  construction_deterministic (movieInput "Inception" "m1" []) _ rfl

/-- C10: unknown extra keys are ignored: with all declared fields present in
valid shape, construction succeeds, the extra entries change nothing, and the
resulting value carries only the declared fields (by the result types). -/
theorem extra_keys_ignored (ex : List (String × PyVal)) (n i m s : String)
    (sm : List (String × Bool))
    (h : ∀ p ∈ ex, p.1 ≠ "name" ∧ p.1 ≠ "id" ∧ p.1 ≠ "seat_map" ∧
      p.1 ≠ "movie_id" ∧ p.1 ≠ "seat_id") :
    Movie.validate (ex ++ movieInput n i sm) = Except.ok ⟨n, i, sm⟩ ∧
    Booking.validate (ex ++ bookingInput m s) = Except.ok ⟨m, s⟩ := by
  constructor
  · rw [movie_validate_append ex _ fun p hp =>
      ⟨(h p hp).1, (h p hp).2.1, (h p hp).2.2.1⟩]
    exact movie_validate_canonical n i sm
  · rw [booking_validate_append ex _ fun p hp =>
      ⟨(h p hp).2.2.2.1, (h p hp).2.2.2.2⟩]
    exact booking_validate_canonical m s

/-- C10 witness: a concrete unknown key `genre` is ignored by both schemas. -/
theorem extra_keys_ignored_witness :
    Movie.validate ([("genre", PyVal.vstr "scifi")] ++
        movieInput "Inception" "m1" [("A1", true)]) =
      Except.ok ⟨"Inception", "m1", [("A1", true)]⟩ ∧
    Booking.validate ([("genre", PyVal.vstr "scifi")] ++
        bookingInput "m1" "A1") = Except.ok ⟨"m1", "A1"⟩ :=
  extra_keys_ignored [("genre", PyVal.vstr "scifi")] "Inception" "m1" "m1"
    "A1" [("A1", true)] (by decide)
